import Mathlib

/-!
Verification of the FinRegX / Creator-Pulse assessment client and the
assessment pipeline it implies.

The client code under `src/frontend` is embedded shallowly: the state of the
upload form is a record, its event handlers (`onDrop`, `removeFile`,
`handleSubmit`) are pure functions from state (plus the outcome of the two
API calls) to new state and an emitted trace of observable actions
(HTTP requests, navigation, toasts).  The backend pipeline (Clause Matcher,
Gap Detector, Scorer) is not part of the repository; the definitions for it
are modelled from the specification and marked as such.
-/

namespace FinRegX

/-- A file selected in the browser; only its name matters to the client logic. -/
structure FileRec where
  name : String
  deriving DecidableEq, Repr

/-- The JS `String.prototype.toLowerCase` primitive, embedded character-wise
over the underlying character list. -/
def jsToLower (s : String) : String := ⟨s.data.map Char.toLower⟩

/-- The JS `String.prototype.endsWith` primitive: the suffix characters end
the string. -/
def jsEndsWith (s suffix : String) : Bool := suffix.data.isSuffixOf s.data

/-- The JS `String.prototype.trim` primitive: whitespace stripped from both
ends. -/
def jsTrim (s : String) : String :=
  ⟨((s.data.dropWhile Char.isWhitespace).reverse.dropWhile Char.isWhitespace).reverse⟩

/-- The extension filter of `onDrop` in UploadPage.jsx:
`file.name.toLowerCase().endsWith('.pdf') || file.name.toLowerCase().endsWith('.docx')`. -/
def isAllowedFile (f : FileRec) : Bool :=
  jsEndsWith (jsToLower f.name) ".pdf" || jsEndsWith (jsToLower f.name) ".docx"

/-- The `onDrop` handler of UploadPage.jsx: the accepted files are filtered by
extension and the valid ones appended to the current list
(`setFiles(prev => [...prev, ...validFiles])`). -/
def onDrop (prev accepted : List FileRec) : List FileRec :=
  prev ++ accepted.filter isAllowedFile

/-- Whether `onDrop` shows the toast
`Only PDF and DOCX files are accepted`: it does exactly when
`validFiles.length !== acceptedFiles.length`. -/
def onDropShowsError (accepted : List FileRec) : Bool :=
  (accepted.filter isAllowedFile).length != accepted.length

/-- The `removeFile` handler of UploadPage.jsx:
`setFiles(prev => prev.filter((_, i) => i !== index))`. -/
def removeFile (files : List FileRec) (index : Nat) : List FileRec :=
  (files.enum.filter (fun p => p.1 != index)).map Prod.snd

/-- The state held by the UploadPage component (the five useState hooks). -/
structure UploadState where
  startupName : String
  contactEmail : String
  files : List FileRec
  uploading : Bool
  progress : Nat
  deriving DecidableEq, Repr

/-- An observable action of the client: an HTTP request, a navigation, or a
toast shown to the user. -/
inductive Action where
  | postCreate (startupName : String) (contactEmail : Option String)
  | postUpload (assessmentId : String) (files : List FileRec)
  | navigate (path : String)
  | toastError (message : String)
  | toastSuccess (message : String)
  deriving DecidableEq, Repr

/-- Whether an action is a network request (one of the two POSTs). -/
def Action.isNetwork : Action → Bool
  | .postCreate _ _ => true
  | .postUpload _ _ => true
  | _ => false

/-- Whether an action is a navigation. -/
def Action.isNavigate : Action → Bool
  | .navigate _ => true
  | _ => false

/-- The outcome the remote API gives to the two calls `handleSubmit` can make:
the creation call either fails (with an optional `detail` string in the error
response) or returns an assessment id; the upload call either fails the same
way or succeeds. -/
structure ApiOutcome where
  createResult : Except (Option String) String
  uploadResult : Except (Option String) Unit

/-- The JS expression `contactEmail || null` in the creation request body:
an empty string is sent as null. -/
def emailOrNull (e : String) : Option String :=
  if e = "" then none else some e

/-- The toast message of the catch branch of `handleSubmit`:
`error.response?.data?.detail || 'Failed to process documents'` — the detail
string when it is present and non-empty, the fixed fallback otherwise. -/
def uploadErrorMessage (detail : Option String) : String :=
  match detail with
  | some d => if d = "" then "Failed to process documents" else d
  | none => "Failed to process documents"

/-- The toast message of the catch branch of `fetchResults` in
ResultsPage.jsx: the code ignores the error response and always shows
`Failed to load assessment results`. -/
def fetchResultsErrorMessage (_detail : Option String) : String :=
  "Failed to load assessment results"

/-- The `handleSubmit` handler of UploadPage.jsx, as a function from the form
state and the API outcome to the new state and the trace of observable
actions, in order.  The two validation guards return before any request; on
success the progress reaches 100 and the client navigates to the results
page of the created assessment; in the catch branch `uploading` is reset to
false and `progress` to 0. -/
def handleSubmit (s : UploadState) (api : ApiOutcome) : UploadState × List Action :=
  if jsTrim s.startupName = "" then
    (s, [.toastError "Please enter your startup name"])
  else if s.files.length = 0 then
    (s, [.toastError "Please upload at least one document"])
  else
    match api.createResult with
    | .error detail =>
        ({ s with uploading := false, progress := 0 },
          [.postCreate s.startupName (emailOrNull s.contactEmail),
           .toastError (uploadErrorMessage detail)])
    | .ok assessmentId =>
        match api.uploadResult with
        | .error detail =>
            ({ s with uploading := false, progress := 0 },
              [.postCreate s.startupName (emailOrNull s.contactEmail),
               .postUpload assessmentId s.files,
               .toastError (uploadErrorMessage detail)])
        | .ok _ =>
            ({ s with uploading := true, progress := 100 },
              [.postCreate s.startupName (emailOrNull s.contactEmail),
               .postUpload assessmentId s.files,
               .toastSuccess "Documents analyzed successfully!",
               .navigate ("/results/" ++ assessmentId)])

/-- A compliance gap as the results screen consumes it (string severity,
as delivered in the JSON). -/
structure GapView where
  article_name : String
  category : String
  severity : String
  description : String
  requirement : String
  recommendation : String
  deriving DecidableEq, Repr

/-- An expert entry of the recommendations object. -/
structure Expert where
  name : String
  specialization : String
  contact : String
  relevant_articles : List String
  deriving DecidableEq, Repr

/-- A program entry of the recommendations object. -/
structure Program where
  name : String
  description : String
  duration : String
  focus_areas : List String
  website : String
  deriving DecidableEq, Repr

/-- What the gaps tab of ResultsPage.jsx renders: the success state
(`No compliance gaps detected!`) or the list of gap cards. -/
inductive GapsTabView where
  | noGapsSuccess
  | gapList (gaps : List GapView)
  deriving DecidableEq, Repr

/-- The branch `gaps.length === 0 ? <success state> : <list>` of the gaps tab. -/
def renderGapsTab (gaps : List GapView) : GapsTabView :=
  if gaps.length = 0 then .noGapsSuccess else .gapList gaps

/-- The guard `recommendations.experts && recommendations.experts.length > 0`
of the recommendations tab: a missing or empty list omits the section. -/
def showExpertsSection (experts : Option (List Expert)) : Bool :=
  match experts with
  | some es => es.length != 0
  | none => false

/-- The guard `recommendations.programs && recommendations.programs.length > 0`
of the recommendations tab. -/
def showProgramsSection (programs : Option (List Program)) : Bool :=
  match programs with
  | some ps => ps.length != 0
  | none => false

/-- The `getScoreColor` helper of ResultsPage.jsx: green at 75 and above,
yellow at 50 and above, red below 50. -/
def getScoreColor (scoreValue : Int) : String :=
  if scoreValue ≥ 75 then "text-green-600"
  else if scoreValue ≥ 50 then "text-yellow-600"
  else "text-red-600"

/-- The rank of a score color, bottom bucket to top, used to state that the
bucketing is monotone. -/
def colorRank (c : String) : Nat :=
  if c = "text-green-600" then 2 else if c = "text-yellow-600" then 1 else 0

/-- Modelled from the spec: the readiness-level cut points are a
configuration constant (a descending list of thresholds with labels), not
hardcoded logic; the Scorer that applies them is not part of the visible
repository. -/
def readinessCutPoints : List (Int × String) :=
  [(75, "Ready"), (50, "Partially Ready")]

/-- Modelled from the spec: the default label when no cut point is reached. -/
def readinessDefault : String := "Not Ready"

/-- Modelled from the spec: readiness level as a step function of the overall
score driven by a cut-point configuration list. -/
def bucketByCutPoints (cuts : List (Int × String)) (fallback : String) (v : Int) : String :=
  match cuts with
  | [] => fallback
  | (c, label) :: rest => if v ≥ c then label else bucketByCutPoints rest fallback v

/-- Modelled from the spec: the readiness level shown by the results screen,
computed from the configuration constant `readinessCutPoints`. -/
def readinessLevel (v : Int) : String :=
  bucketByCutPoints readinessCutPoints readinessDefault v

/-- Modelled from the spec: the three-valued coverage verdict of the Clause
Matcher (satisfied / partially satisfied / absent); the Matcher itself is not
part of the visible repository. -/
inductive Coverage where
  | satisfied
  | partiallySatisfied
  | absent
  deriving DecidableEq, Repr

/-- Modelled from the spec: gap severity levels. -/
inductive Severity where
  | high
  | medium
  | low
  deriving DecidableEq, Repr

/-- Modelled from the spec: an entry of the read-only Rule Catalog — id,
name, category, positive weight, requirement text, and whether the article is
structurally critical (used by the severity tie-break rule). -/
structure Article where
  id : String
  name : String
  category : String
  weight : ℚ
  requirement : String
  critical : Bool
  deriving DecidableEq, Repr

/-- Modelled from the spec: a per-article verdict — article id, coverage,
and an optional evidence excerpt. -/
structure Verdict where
  articleId : String
  coverage : Coverage
  evidence : Option String
  deriving DecidableEq, Repr

/-- Modelled from the spec: the Clause Matcher, polymorphic over the
capability evaluate(text, article) that returns a coverage and optional
evidence; it maps every catalog article, in catalog order, to one verdict. -/
def runMatcher (evaluate : String → Article → Coverage × Option String)
    (text : String) (catalog : List Article) : List Verdict :=
  catalog.map (fun a =>
    { articleId := a.id, coverage := (evaluate text a).1, evidence := (evaluate text a).2 })

/-- Modelled from the spec: a typed Gap record emitted by the Gap Detector. -/
structure GapRec where
  articleId : String
  category : String
  severity : Severity
  deriving DecidableEq, Repr

/-- Modelled from the spec: severity derived deterministically from coverage
and the article criticality — absence on a critical article is always HIGH. -/
def severityOf (a : Article) (c : Coverage) : Severity :=
  match c with
  | .absent => if a.critical then .high else .medium
  | .partiallySatisfied => if a.critical then .medium else .low
  | .satisfied => .low

/-- Modelled from the spec: the Gap Detector — a pure function over the
verdict set (aligned with the catalog, as `runMatcher` produces it) that
emits one gap, in catalog order, for every verdict that is not satisfied. -/
def detectGaps (catalog : List Article) (verdicts : List Verdict) : List GapRec :=
  (catalog.zip verdicts).filterMap (fun p =>
    match p.2.coverage with
    | .satisfied => none
    | c => some { articleId := p.1.id, category := p.1.category, severity := severityOf p.1 c })

/-- Modelled from the spec: the numeric value of a coverage verdict
(satisfied = 100, partially satisfied = 50, absent = 0). -/
def coverageValue : Coverage → ℚ
  | .satisfied => 100
  | .partiallySatisfied => 50
  | .absent => 0

/-- The score object of a completed assessment, as the results screen
consumes it and the Scorer produces it. -/
structure ScoreRec where
  overall_score : ℚ
  total_gaps : Nat
  high_severity_gaps : Nat
  medium_severity_gaps : Nat
  low_severity_gaps : Nat
  deriving DecidableEq, Repr

/-- Modelled from the spec: the Scorer — overall score is the weight-averaged
coverage value over the catalog, and the gap counters are derived from the
same verdict set the Gap Detector consumes. -/
def scoreOf (catalog : List Article) (verdicts : List Verdict) : ScoreRec :=
  let pairs := catalog.zip verdicts
  let totalWeight : ℚ := (pairs.map (fun p => p.1.weight)).sum
  let weighted : ℚ := (pairs.map (fun p => p.1.weight * coverageValue p.2.coverage)).sum
  let gaps := detectGaps catalog verdicts
  { overall_score := if totalWeight = 0 then 0 else weighted / totalWeight
    total_gaps := gaps.length
    high_severity_gaps := (gaps.filter (fun g => g.severity == Severity.high)).length
    medium_severity_gaps := (gaps.filter (fun g => g.severity == Severity.medium)).length
    low_severity_gaps := (gaps.filter (fun g => g.severity == Severity.low)).length }

/-- Every element of a filtered-by-`isAllowedFile` list is allowed. -/
theorem mem_filter_allowed {l : List FileRec} {f : FileRec}
    (h : f ∈ l.filter isAllowedFile) : isAllowedFile f = true :=
  (List.mem_filter.mp h).2

/-- `removeFile` only removes elements: the result is a sublist of the input. -/
theorem removeFile_sublist (files : List FileRec) (index : Nat) :
    (removeFile files index).Sublist files := by
  have h1 : (files.enum.filter (fun p => p.1 != index)).Sublist files.enum :=
    List.filter_sublist files.enum
  have h2 := h1.map Prod.snd
  simpa [removeFile, List.enum_map_snd] using h2

/-- C2: for every list of files dropped onto the upload form, exactly those
files whose lowercased name ends with `.pdf` or `.docx` are appended to the
pending list, in their original order (the kept files form a sublist of the
drop); any dropped file with a different extension is not added, and the
error toast is shown precisely when some dropped file is not allowed. -/
theorem onDrop_appends_exactly_allowed (prev accepted : List FileRec) :
    onDrop prev accepted = prev ++ accepted.filter isAllowedFile ∧
    (accepted.filter isAllowedFile).Sublist accepted ∧
    (∀ f ∈ accepted,
      (jsEndsWith (jsToLower f.name) ".pdf" || jsEndsWith (jsToLower f.name) ".docx") = true →
      f ∈ onDrop prev accepted) ∧
    (∀ f ∈ onDrop prev accepted, f ∉ prev →
      (jsEndsWith (jsToLower f.name) ".pdf" || jsEndsWith (jsToLower f.name) ".docx") = true) ∧
    (onDropShowsError accepted = true ↔ ∃ f ∈ accepted, isAllowedFile f = false) := by
  refine ⟨rfl, List.filter_sublist accepted, ?_, ?_, ?_⟩
  · intro f hf hext
    exact List.mem_append.mpr (Or.inr (List.mem_filter.mpr ⟨hf, hext⟩))
  · intro f hf hnp
    rcases List.mem_append.mp hf with h | h
    · exact absurd h hnp
    · exact mem_filter_allowed h
  · unfold onDropShowsError
    rw [bne_iff_ne]
    constructor
    · intro hne
      by_contra hno
      push_neg at hno
      exact hne (List.filter_length_eq_length.mpr (fun a ha => by
        have := hno a ha
        simpa [Bool.not_eq_false] using this))
    · rintro ⟨f, hf, hff⟩ hlen
      have := List.filter_length_eq_length.mp hlen f hf
      rw [hff] at this
      exact Bool.false_ne_true this

/-- C9: the pending-file list invariant — every element is a `.pdf` or
`.docx` file — is preserved by both mutating operations: `onDrop` appends
only filtered files and `removeFile` only removes an element. -/
theorem files_invariant_preserved (files accepted : List FileRec) (index : Nat)
    (hinv : ∀ f ∈ files, isAllowedFile f = true) :
    (∀ f ∈ onDrop files accepted, isAllowedFile f = true) ∧
    (∀ f ∈ removeFile files index, isAllowedFile f = true) := by
  constructor
  · intro f hf
    rcases List.mem_append.mp hf with h | h
    · exact hinv f h
    · exact mem_filter_allowed h
  · intro f hf
    exact hinv f ((removeFile_sublist files index).subset hf)

/-- Witness for C9 at a concrete pending list, drop and index. -/
theorem files_invariant_preserved_witness :
    (∀ f ∈ onDrop [⟨"plan.pdf"⟩] [⟨"policy.docx"⟩, ⟨"notes.txt"⟩], isAllowedFile f = true) ∧
    (∀ f ∈ removeFile [⟨"plan.pdf"⟩] 0, isAllowedFile f = true) :=
  files_invariant_preserved [⟨"plan.pdf"⟩] [⟨"policy.docx"⟩, ⟨"notes.txt"⟩] 0 (by decide)

/-- C3: with a blank (after trimming) startup name or an empty pending-file
list, `handleSubmit` performs no network request and no navigation, leaves
the whole form state unchanged, and shows an error toast. -/
theorem submit_validation_blocks (s : UploadState) (api : ApiOutcome)
    (h : jsTrim s.startupName = "" ∨ s.files = []) :
    (handleSubmit s api).1 = s ∧
    (∀ a ∈ (handleSubmit s api).2, a.isNetwork = false ∧ a.isNavigate = false) ∧
    (∃ m, Action.toastError m ∈ (handleSubmit s api).2) := by
  have hres : ∃ m, handleSubmit s api = (s, [.toastError m]) := by
    by_cases hname : jsTrim s.startupName = ""
    · exact ⟨"Please enter your startup name", by simp [handleSubmit, hname]⟩
    · have hfiles : s.files = [] := h.resolve_left hname
      exact ⟨"Please upload at least one document", by simp [handleSubmit, hname, hfiles]⟩
  obtain ⟨m, hm⟩ := hres
  refine ⟨by rw [hm], ?_, ⟨m, by rw [hm]; exact List.mem_singleton.mpr rfl⟩⟩
  intro a ha
  rw [hm] at ha
  have := List.mem_singleton.mp ha
  subst this
  exact ⟨rfl, rfl⟩

/-- Witness for C3: a whitespace-only startup name at a concrete state and
API outcome. -/
theorem submit_validation_blocks_witness :
    (handleSubmit ⟨"  ", "", [⟨"plan.pdf"⟩], false, 0⟩ ⟨.ok "a1", .ok ()⟩).1 =
      ⟨"  ", "", [⟨"plan.pdf"⟩], false, 0⟩ ∧
    (∀ a ∈ (handleSubmit ⟨"  ", "", [⟨"plan.pdf"⟩], false, 0⟩ ⟨.ok "a1", .ok ()⟩).2,
      a.isNetwork = false ∧ a.isNavigate = false) ∧
    (∃ m, Action.toastError m ∈
      (handleSubmit ⟨"  ", "", [⟨"plan.pdf"⟩], false, 0⟩ ⟨.ok "a1", .ok ()⟩).2) :=
  submit_validation_blocks ⟨"  ", "", [⟨"plan.pdf"⟩], false, 0⟩ ⟨.ok "a1", .ok ()⟩
    (Or.inl (by decide))

/-- C1: with a non-blank (after trimming) startup name and a non-empty file
list, `handleSubmit` first POSTs the creation request with the startup name
and the email-or-null body, then POSTs the selected files to the upload
endpoint of exactly the id the creation call returned, and navigates to the
results page of that same id only after the upload call succeeds; if the
upload fails no navigation is emitted, and if the creation fails neither an
upload nor a navigation is emitted. -/
theorem submit_happy_path (s : UploadState) (api : ApiOutcome) (assessmentId : String)
    (hname : jsTrim s.startupName ≠ "") (hfiles : s.files ≠ []) :
    (api.createResult = .ok assessmentId → api.uploadResult = .ok () →
      (handleSubmit s api).2 =
        [.postCreate s.startupName (emailOrNull s.contactEmail),
         .postUpload assessmentId s.files,
         .toastSuccess "Documents analyzed successfully!",
         .navigate ("/results/" ++ assessmentId)]) ∧
    (∀ d, api.createResult = .ok assessmentId → api.uploadResult = .error d →
      (handleSubmit s api).2 =
        [.postCreate s.startupName (emailOrNull s.contactEmail),
         .postUpload assessmentId s.files,
         .toastError (uploadErrorMessage d)]) ∧
    (∀ d, api.createResult = .error d →
      (handleSubmit s api).2 =
        [.postCreate s.startupName (emailOrNull s.contactEmail),
         .toastError (uploadErrorMessage d)]) := by
  have hlen : ¬ s.files.length = 0 := by simpa [List.length_eq_zero] using hfiles
  refine ⟨?_, ?_, ?_⟩
  · intro hc hu
    simp [handleSubmit, hname, hlen, hc, hu]
  · intro d hc hu
    simp [handleSubmit, hname, hlen, hc, hu]
  · intro d hc
    simp [handleSubmit, hname, hlen, hc]

/-- Witness for C1 at a concrete state, id and successful API outcome. -/
theorem submit_happy_path_witness :
    ((⟨Except.ok "a1", Except.ok ()⟩ : ApiOutcome).createResult = .ok "a1" →
      (⟨Except.ok "a1", Except.ok ()⟩ : ApiOutcome).uploadResult = .ok () →
      (handleSubmit ⟨"Acme", "", [⟨"plan.pdf"⟩], false, 0⟩ ⟨.ok "a1", .ok ()⟩).2 =
        [.postCreate "Acme" (emailOrNull ""),
         .postUpload "a1" [⟨"plan.pdf"⟩],
         .toastSuccess "Documents analyzed successfully!",
         .navigate ("/results/" ++ "a1")]) ∧
    (∀ d, (⟨Except.ok "a1", Except.ok ()⟩ : ApiOutcome).createResult = .ok "a1" →
      (⟨Except.ok "a1", Except.ok ()⟩ : ApiOutcome).uploadResult = .error d →
      (handleSubmit ⟨"Acme", "", [⟨"plan.pdf"⟩], false, 0⟩ ⟨.ok "a1", .ok ()⟩).2 =
        [.postCreate "Acme" (emailOrNull ""),
         .postUpload "a1" [⟨"plan.pdf"⟩],
         .toastError (uploadErrorMessage d)]) ∧
    (∀ d, (⟨Except.ok "a1", Except.ok ()⟩ : ApiOutcome).createResult = .error d →
      (handleSubmit ⟨"Acme", "", [⟨"plan.pdf"⟩], false, 0⟩ ⟨.ok "a1", .ok ()⟩).2 =
        [.postCreate "Acme" (emailOrNull ""),
         .toastError (uploadErrorMessage d)]) :=
  submit_happy_path ⟨"Acme", "", [⟨"plan.pdf"⟩], false, 0⟩ ⟨.ok "a1", .ok ()⟩ "a1"
    (by decide) (by decide)

/-- C10: when either API call fails during a submission that passed
validation, the form ends in the non-uploading state with progress 0, the
startup name, contact email and pending-file list are unchanged, and no
navigation is emitted. -/
theorem submit_failure_resets (s : UploadState) (api : ApiOutcome)
    (hname : jsTrim s.startupName ≠ "") (hfiles : s.files ≠ [])
    (hfail : (∃ d, api.createResult = .error d) ∨ (∃ d, api.uploadResult = .error d)) :
    (handleSubmit s api).1.uploading = false ∧
    (handleSubmit s api).1.progress = 0 ∧
    (handleSubmit s api).1.startupName = s.startupName ∧
    (handleSubmit s api).1.contactEmail = s.contactEmail ∧
    (handleSubmit s api).1.files = s.files ∧
    (∀ a ∈ (handleSubmit s api).2, a.isNavigate = false) := by
  have hlen : ¬ s.files.length = 0 := by simpa [List.length_eq_zero] using hfiles
  cases hc : api.createResult with
  | error d =>
    refine ⟨?_, ?_, ?_, ?_, ?_, ?_⟩ <;>
      simp [handleSubmit, hname, hlen, hc, Action.isNavigate]
  | ok assessmentId =>
    cases hu : api.uploadResult with
    | error d =>
      refine ⟨?_, ?_, ?_, ?_, ?_, ?_⟩ <;>
        simp [handleSubmit, hname, hlen, hc, hu, Action.isNavigate]
    | ok u =>
      exfalso
      rcases hfail with ⟨d, hd⟩ | ⟨d, hd⟩ <;> simp_all

/-- Witness for C10: a failed creation call at a concrete state. -/
theorem submit_failure_resets_witness :
    (handleSubmit ⟨"Acme", "", [⟨"plan.pdf"⟩], false, 0⟩
      ⟨.error (some "boom"), .ok ()⟩).1.uploading = false ∧
    (handleSubmit ⟨"Acme", "", [⟨"plan.pdf"⟩], false, 0⟩
      ⟨.error (some "boom"), .ok ()⟩).1.progress = 0 ∧
    (handleSubmit ⟨"Acme", "", [⟨"plan.pdf"⟩], false, 0⟩
      ⟨.error (some "boom"), .ok ()⟩).1.startupName = "Acme" ∧
    (handleSubmit ⟨"Acme", "", [⟨"plan.pdf"⟩], false, 0⟩
      ⟨.error (some "boom"), .ok ()⟩).1.contactEmail = "" ∧
    (handleSubmit ⟨"Acme", "", [⟨"plan.pdf"⟩], false, 0⟩
      ⟨.error (some "boom"), .ok ()⟩).1.files = [⟨"plan.pdf"⟩] ∧
    (∀ a ∈ (handleSubmit ⟨"Acme", "", [⟨"plan.pdf"⟩], false, 0⟩
      ⟨.error (some "boom"), .ok ()⟩).2, a.isNavigate = false) :=
  submit_failure_resets ⟨"Acme", "", [⟨"plan.pdf"⟩], false, 0⟩
    ⟨.error (some "boom"), .ok ()⟩ (by decide) (by decide) (Or.inl ⟨some "boom", rfl⟩)

/-- C4 counterexample: a failed read of an assessment does not surface the
error detail verbatim — the client shows the fixed message
`Failed to load assessment results` instead. -/
theorem fetchResults_detail_not_verbatim :
    fetchResultsErrorMessage (some "Assessment not found") ≠ "Assessment not found" := by
  decide

/-- C4 amended: a failed upload call with a non-empty `detail` string
surfaces it verbatim; a failed read of an assessment always shows the fixed
message `Failed to load assessment results`, whatever detail the response
carried. -/
theorem error_detail_surfacing (d : String) (hd : d ≠ "") :
    uploadErrorMessage (some d) = d ∧
    (∀ e : Option String, fetchResultsErrorMessage e = "Failed to load assessment results") :=
  ⟨by simp [uploadErrorMessage, hd], fun _ => rfl⟩

/-- Witness for the amended C4 at a concrete detail string. -/
theorem error_detail_surfacing_witness :
    uploadErrorMessage (some "No valid documents were processed") =
      "No valid documents were processed" ∧
    (∀ e : Option String, fetchResultsErrorMessage e = "Failed to load assessment results") :=
  error_detail_surfacing "No valid documents were processed" (by decide)

/-- C5: score bucketing on the results screen is a monotonic step function
with cut points at 75 and 50 — top bucket iff the value is at least 75,
middle bucket iff at least 50 and below 75, bottom bucket otherwise — and
the readiness level modelled from the spec applies the same cut points taken
from the configuration constant `readinessCutPoints`. -/
theorem score_bucketing (v w : Int) (hvw : v ≤ w) :
    (getScoreColor v = "text-green-600" ↔ 75 ≤ v) ∧
    (getScoreColor v = "text-yellow-600" ↔ 50 ≤ v ∧ v < 75) ∧
    (getScoreColor v = "text-red-600" ↔ v < 50) ∧
    colorRank (getScoreColor v) ≤ colorRank (getScoreColor w) ∧
    (readinessLevel v = "Ready" ↔ 75 ≤ v) ∧
    (readinessLevel v = "Partially Ready" ↔ 50 ≤ v ∧ v < 75) ∧
    (readinessLevel v = "Not Ready" ↔ v < 50) ∧
    readinessLevel v = bucketByCutPoints readinessCutPoints readinessDefault v := by
  refine ⟨?_, ?_, ?_, ?_, ?_, ?_, ?_, rfl⟩ <;>
    simp only [getScoreColor, readinessLevel, readinessCutPoints, readinessDefault,
      bucketByCutPoints] <;>
    split_ifs <;> simp [colorRank] <;> omega

/-- Witness for C5 at the concrete scores 60 and 80. -/
theorem score_bucketing_witness :
    (getScoreColor 60 = "text-green-600" ↔ 75 ≤ (60 : Int)) ∧
    (getScoreColor 60 = "text-yellow-600" ↔ 50 ≤ (60 : Int) ∧ (60 : Int) < 75) ∧
    (getScoreColor 60 = "text-red-600" ↔ (60 : Int) < 50) ∧
    colorRank (getScoreColor 60) ≤ colorRank (getScoreColor 80) ∧
    (readinessLevel 60 = "Ready" ↔ 75 ≤ (60 : Int)) ∧
    (readinessLevel 60 = "Partially Ready" ↔ 50 ≤ (60 : Int) ∧ (60 : Int) < 75) ∧
    (readinessLevel 60 = "Not Ready" ↔ (60 : Int) < 50) ∧
    readinessLevel 60 = bucketByCutPoints readinessCutPoints readinessDefault 60 :=
  score_bucketing 60 80 (by omega)

/-- C6: an empty gap list renders the success state of the gaps tab, and a
missing or empty experts or programs list simply omits the corresponding
recommendation section. -/
theorem empty_sequences_render_success (gaps : List GapView)
    (experts : Option (List Expert)) (programs : Option (List Program))
    (hg : gaps.length = 0) (he : experts = none ∨ experts = some [])
    (hp : programs = none ∨ programs = some []) :
    renderGapsTab gaps = GapsTabView.noGapsSuccess ∧
    showExpertsSection experts = false ∧
    showProgramsSection programs = false := by
  refine ⟨by simp [renderGapsTab, hg], ?_, ?_⟩
  · rcases he with h | h <;> simp [showExpertsSection, h]
  · rcases hp with h | h <;> simp [showProgramsSection, h]

/-- Witness for C6 at empty and missing sequences. -/
theorem empty_sequences_render_success_witness :
    renderGapsTab [] = GapsTabView.noGapsSuccess ∧
    showExpertsSection none = false ∧
    showProgramsSection (some []) = false :=
  empty_sequences_render_success [] none (some []) rfl (Or.inl rfl) (Or.inr rfl)

/-- C7: the Clause Matcher, as a pure function of the normalized text and
the catalog (for any fixed evaluation capability), gives the same verdict
set on identical inputs, and therefore the Scorer gives the same score
record over that verdict set. -/
theorem matcher_deterministic (evaluate : String → Article → Coverage × Option String)
    (t1 t2 : String) (c1 c2 : List Article) (ht : t1 = t2) (hc : c1 = c2) :
    runMatcher evaluate t1 c1 = runMatcher evaluate t2 c2 ∧
    scoreOf c1 (runMatcher evaluate t1 c1) = scoreOf c2 (runMatcher evaluate t2 c2) := by
  subst ht
  subst hc
  exact ⟨rfl, rfl⟩

/-- Witness for C7 at a concrete evaluator, text and one-article catalog. -/
theorem matcher_deterministic_witness :
    runMatcher (fun _ _ => (Coverage.absent, none)) "doc"
        [⟨"1.1", "Capital", "Capital", 40, "Minimum capital", true⟩] =
      runMatcher (fun _ _ => (Coverage.absent, none)) "doc"
        [⟨"1.1", "Capital", "Capital", 40, "Minimum capital", true⟩] ∧
    scoreOf [⟨"1.1", "Capital", "Capital", 40, "Minimum capital", true⟩]
        (runMatcher (fun _ _ => (Coverage.absent, none)) "doc"
          [⟨"1.1", "Capital", "Capital", 40, "Minimum capital", true⟩]) =
      scoreOf [⟨"1.1", "Capital", "Capital", 40, "Minimum capital", true⟩]
        (runMatcher (fun _ _ => (Coverage.absent, none)) "doc"
          [⟨"1.1", "Capital", "Capital", 40, "Minimum capital", true⟩]) :=
  matcher_deterministic (fun _ _ => (Coverage.absent, none)) "doc" "doc"
    [⟨"1.1", "Capital", "Capital", 40, "Minimum capital", true⟩]
    [⟨"1.1", "Capital", "Capital", 40, "Minimum capital", true⟩] rfl rfl

/-- Every gap list partitions by severity: its length is the sum of the
per-severity filter lengths. -/
theorem gap_counts_partition (gaps : List GapRec) :
    gaps.length = (gaps.filter (fun g => g.severity == Severity.high)).length
      + (gaps.filter (fun g => g.severity == Severity.medium)).length
      + (gaps.filter (fun g => g.severity == Severity.low)).length := by
  induction gaps with
  | nil => rfl
  | cons g gs ih =>
    cases hg : g.severity <;> simp [List.filter_cons, hg, ih] <;> omega

/-- C8: for every catalog and verdict set, the score record satisfies
total_gaps = high_severity_gaps + medium_severity_gaps + low_severity_gaps. -/
theorem score_total_gaps_eq_sum (catalog : List Article) (verdicts : List Verdict) :
    (scoreOf catalog verdicts).total_gaps =
      (scoreOf catalog verdicts).high_severity_gaps +
      (scoreOf catalog verdicts).medium_severity_gaps +
      (scoreOf catalog verdicts).low_severity_gaps := by
  simp only [scoreOf]
  exact gap_counts_partition (detectGaps catalog verdicts)

end FinRegX
